import Mathlib

/-!
Verification of the `ByFrame` memory-mapping strategy
(`crate/memory/src/memory_set/handler/byframe.rs`).

The handler itself is embedded directly from the Rust source.  The
collaborators it is generic over (`FrameAllocator`, `PageTable`,
`MemoryAttr`) are declared elsewhere in the repository; they are modelled
here from the specification's narrow-interface description (allocate-one /
free-one pool; per-page map / unmap / lookup; immutable permission-flag
value applied to an entry).

Rust's `&mut` state is made explicit by state passing, and a Rust panic
(`.expect`) is embedded as `Except.error (p : Panic)`: an unrecoverable
kernel abort, distinct from any recoverable failure result.
-/

/-- Virtual address (Rust `VirtAddr`, an address value). -/
abbrev VirtAddr := Nat

/-- Physical address of one frame (Rust `PhysAddr`). -/
abbrev PhysAddr := Nat

/-- Modelled from the spec: `MemoryAttr` (declared outside the shown file) is an
immutable value object carrying readable/writable/executable/user-accessible/present
permission flags for a mapping. -/
structure MemoryAttr where
  readable : Bool
  writable : Bool
  executable : Bool
  user : Bool
  present : Bool
deriving DecidableEq, Repr

/-- A page-table entry: exposes its backing frame and its current attribute
(spec section 6: "entry exposes its backing frame and current attribute"). -/
structure Entry where
  target : PhysAddr
  attr : MemoryAttr
deriving DecidableEq, Repr

/-- Modelled from the spec: the `PageTable` collaborator (declared outside the
shown file) owns the mapping from virtual page to entry; lookup yields the
entry or NotMapped (`none`). -/
abbrev PageTable := VirtAddr → Option Entry

/-- The page table with no mappings installed. -/
def emptyPageTable : PageTable := fun _ => none

/-- Modelled from the spec: `lookup(virtualAddress) -> entry or NotMapped`
(Rust `pt.get_entry(addr)` returning `Option`). -/
def PageTable.get_entry (pt : PageTable) (addr : VirtAddr) : Option Entry :=
  pt addr

/-- The flags a freshly installed entry carries before `MemoryAttr.apply`
overwrites them; the concrete default is irrelevant to every property below. -/
def defaultAttr : MemoryAttr :=
  ⟨false, false, false, false, true⟩

/-- Modelled from the spec: `installMapping` (Rust `pt.map(addr, target)`):
installs an entry for `addr` backed by `target`, whose attribute the caller
then sets via `MemoryAttr.apply`. -/
def PageTable.map (pt : PageTable) (addr : VirtAddr) (target : PhysAddr) : PageTable :=
  fun b => if b = addr then some ⟨target, defaultAttr⟩ else pt b

/-- Modelled from the spec: `removeMapping` (Rust `pt.unmap(addr)`). -/
def PageTable.unmap (pt : PageTable) (addr : VirtAddr) : PageTable :=
  fun b => if b = addr then none else pt b

/-- Modelled from the spec: `attr.apply(entry)` writes the attribute value into
the entry the page table just handed back; the entry lives inside the table, so
the mutation is embedded as an update of the table at that address. -/
def MemoryAttr.apply (attr : MemoryAttr) (pt : PageTable) (addr : VirtAddr) : PageTable :=
  fun b => if b = addr then Option.map (fun e => ⟨e.target, attr⟩) (pt b) else pt b

/-- Modelled from the spec: the `FrameAllocator` collaborator owns the pool of
free physical frames and exposes allocate-one / free-one. -/
structure FrameAllocator where
  free : List PhysAddr
deriving DecidableEq, Repr

/-- Modelled from the spec: `allocate() -> frame or NoFramesAvailable` (`none`). -/
def FrameAllocator.alloc : FrameAllocator → Option (PhysAddr × FrameAllocator)
  | ⟨[]⟩ => none
  | ⟨f :: rest⟩ => some (f, ⟨rest⟩)

/-- Modelled from the spec: `free(frame)` returns a frame to the pool. -/
def FrameAllocator.dealloc (a : FrameAllocator) (f : PhysAddr) : FrameAllocator :=
  ⟨f :: a.free⟩

/-- The allocator's free-frame count. -/
def FrameAllocator.freeCount (a : FrameAllocator) : Nat :=
  a.free.length

/-- A Rust panic raised by `.expect`: an unrecoverable kernel abort, not a
failure result the caller can handle.  The two constructors correspond to the
two `.expect` messages in `byframe.rs`. -/
inductive Panic where
  /-- `expect("failed to allocate frame")` in `ByFrame::map`. -/
  | failedToAllocateFrame
  /-- `expect("fail to get entry")` in `ByFrame::unmap`. -/
  | failToGetEntry
deriving DecidableEq, Repr

/-- `pub struct ByFrame<T: FrameAllocator> { allocator: T }`. -/
structure ByFrame where
  allocator : FrameAllocator
deriving DecidableEq, Repr

/-- `ByFrame::new(allocator)`. -/
def ByFrame.new (allocator : FrameAllocator) : ByFrame :=
  ⟨allocator⟩

/-- `fn box_clone(&self) -> Box<MemoryHandler> { Box::new(self.clone()) }`;
`Clone` is derived, so it clones the `allocator` field. -/
def ByFrame.box_clone (h : ByFrame) : ByFrame :=
  ⟨h.allocator⟩

/-- `ByFrame::map`, embedded from the source:
`let target = self.allocator.alloc().expect("failed to allocate frame");
let entry = pt.map(addr, target); attr.apply(entry);`.
`Except.error` is the panic (kernel abort) raised by `.expect`. -/
def ByFrame.map (h : ByFrame) (pt : PageTable) (addr : VirtAddr) (attr : MemoryAttr) :
    Except Panic (ByFrame × PageTable) :=
  match FrameAllocator.alloc h.allocator with
  | none => Except.error Panic.failedToAllocateFrame
  | some (target, allocator') =>
      Except.ok (⟨allocator'⟩, MemoryAttr.apply attr (PageTable.map pt addr target) addr)

/-- `ByFrame::unmap`, embedded from the source:
`let target = pt.get_entry(addr).expect("fail to get entry").target();
self.allocator.dealloc(target); pt.unmap(addr);`. -/
def ByFrame.unmap (h : ByFrame) (pt : PageTable) (addr : VirtAddr) :
    Except Panic (ByFrame × PageTable) :=
  match PageTable.get_entry pt addr with
  | none => Except.error Panic.failToGetEntry
  | some e =>
      Except.ok (⟨FrameAllocator.dealloc h.allocator e.target⟩, PageTable.unmap pt addr)

/-- `ByFrame::handle_page_fault`, embedded from the source: the body is just
`false`; both `&mut` arguments are unused, so handler and table pass through. -/
def ByFrame.handle_page_fault (h : ByFrame) (pt : PageTable) (_addr : VirtAddr) :
    Bool × ByFrame × PageTable :=
  (false, h, pt)

/-- A sample attribute value used for concrete evaluations. -/
def attr0 : MemoryAttr :=
  ⟨true, true, false, true, true⟩

/-- C1: the claim fails on the code.  With an exhausted allocator (empty free
pool), `ByFrame.map` panics — `.expect("failed to allocate frame")`, a kernel
abort — instead of reporting a recoverable NoFramesAvailable failure result,
so `map` does abort on this input. -/
theorem C1_map_panics_on_exhaustion :
    ByFrame.map ⟨⟨[]⟩⟩ emptyPageTable 0 attr0
      = Except.error Panic.failedToAllocateFrame := rfl

/-- C2: the claim fails on the code.  On an address the handler never mapped
(lookup yields NotMapped), `ByFrame.unmap` panics — `.expect("fail to get
entry")`, a kernel abort — instead of surfacing EntryNotFound as a failure
result to the caller. -/
theorem C2_unmap_panics_on_missing_entry :
    ByFrame.unmap ⟨⟨[0]⟩⟩ emptyPageTable 4096
      = Except.error Panic.failToGetEntry := rfl

/-- C4: `handle_page_fault` returns `false` for every handler state, page
table and address: the eager strategy never resolves a fault. -/
theorem C4_handle_page_fault_always_false (h : ByFrame) (pt : PageTable) (a : VirtAddr) :
    (ByFrame.handle_page_fault h pt a).1 = false := rfl

/-- C10: `handle_page_fault` has no side effects: it returns `false` and
leaves the handler (hence its allocator) and the page table unchanged. -/
theorem C10_handle_page_fault_no_side_effects (h : ByFrame) (pt : PageTable) (a : VirtAddr) :
    ByFrame.handle_page_fault h pt a = (false, h, pt) := rfl

/-- C8: `box_clone` (duplicate) yields a handler whose `map`, `unmap` and
`handle_page_fault` agree with the original's on every input, and the clone
carries the source handler's allocator state unchanged. -/
theorem C8_box_clone_behaves_identically (h : ByFrame) :
    (∀ pt a attr, ByFrame.map (ByFrame.box_clone h) pt a attr = ByFrame.map h pt a attr) ∧
    (∀ pt a, ByFrame.unmap (ByFrame.box_clone h) pt a = ByFrame.unmap h pt a) ∧
    (∀ pt a, ByFrame.handle_page_fault (ByFrame.box_clone h) pt a
        = ByFrame.handle_page_fault h pt a) ∧
    (ByFrame.box_clone h).allocator = h.allocator :=
  ⟨fun _ _ _ => rfl, fun _ _ => rfl, fun _ _ => rfl, rfl⟩

/-- C3: a successful `map` at an address followed by `unmap` at the same
address restores the allocator's free-frame count to its pre-map value. -/
theorem C3_map_unmap_conserves_freeCount
    (h h' : ByFrame) (pt pt' : PageTable) (a : VirtAddr) (attr : MemoryAttr)
    (hm : ByFrame.map h pt a attr = Except.ok (h', pt')) :
    ∃ h'' pt'', ByFrame.unmap h' pt' a = Except.ok (h'', pt'') ∧
      FrameAllocator.freeCount h''.allocator = FrameAllocator.freeCount h.allocator := by
  obtain ⟨⟨free⟩⟩ := h
  cases free with
  | nil => simp [ByFrame.map, FrameAllocator.alloc] at hm
  | cons f rest =>
    simp [ByFrame.map, FrameAllocator.alloc] at hm
    obtain ⟨hh, hp⟩ := hm
    subst hh
    subst hp
    refine ⟨⟨⟨f :: rest⟩⟩, PageTable.unmap (MemoryAttr.apply attr (PageTable.map pt a f) a) a,
      ?_, rfl⟩
    simp [ByFrame.unmap, PageTable.get_entry, MemoryAttr.apply, PageTable.map,
      FrameAllocator.dealloc]

/-- C3 witness: concrete run with one free frame numbered 7 mapped at
address 0. -/
theorem C3_witness :
    ∃ h'' pt'', ByFrame.unmap ⟨⟨[]⟩⟩
        (MemoryAttr.apply attr0 (PageTable.map emptyPageTable 0 7) 0) 0
        = Except.ok (h'', pt'') ∧
      FrameAllocator.freeCount h''.allocator = FrameAllocator.freeCount ⟨[7]⟩ :=
  C3_map_unmap_conserves_freeCount ⟨⟨[7]⟩⟩ ⟨⟨[]⟩⟩ emptyPageTable
    (MemoryAttr.apply attr0 (PageTable.map emptyPageTable 0 7) 0) 0 attr0 rfl

/-- C5: when the allocator can allocate (it yields frame `f` and successor
state `al'`), `map` succeeds, the free-frame count drops by exactly one, and
the page table afterwards maps the address to exactly `f` with exactly the
requested attribute. -/
theorem C5_map_allocates_installs_applies
    (h : ByFrame) (pt : PageTable) (a : VirtAddr) (attr : MemoryAttr)
    (f : PhysAddr) (al' : FrameAllocator)
    (ha : FrameAllocator.alloc h.allocator = some (f, al')) :
    ∃ h' pt', ByFrame.map h pt a attr = Except.ok (h', pt') ∧
      FrameAllocator.freeCount h'.allocator + 1 = FrameAllocator.freeCount h.allocator ∧
      PageTable.get_entry pt' a = some ⟨f, attr⟩ := by
  obtain ⟨⟨free⟩⟩ := h
  cases free with
  | nil => simp [FrameAllocator.alloc] at ha
  | cons g rest =>
    simp [FrameAllocator.alloc] at ha
    obtain ⟨hf, hal⟩ := ha
    subst hf
    subst hal
    refine ⟨⟨⟨rest⟩⟩, MemoryAttr.apply attr (PageTable.map pt a g) a, rfl, rfl, ?_⟩
    simp [PageTable.get_entry, MemoryAttr.apply, PageTable.map]

/-- C5 witness: allocator holding frames 5 and 9; mapping address 0 consumes
frame 5 and installs it with `attr0`. -/
theorem C5_witness :
    ∃ h' pt', ByFrame.map ⟨⟨[5, 9]⟩⟩ emptyPageTable 0 attr0 = Except.ok (h', pt') ∧
      FrameAllocator.freeCount h'.allocator + 1 = FrameAllocator.freeCount ⟨[5, 9]⟩ ∧
      PageTable.get_entry pt' 0 = some ⟨5, attr0⟩ :=
  C5_map_allocates_installs_applies ⟨⟨[5, 9]⟩⟩ emptyPageTable 0 attr0 5 ⟨[9]⟩ rfl

/-- C6: on an address currently mapped (its entry is `e`), `unmap` succeeds,
pushes exactly the frame `e.target` read from the page-table entry back onto
the allocator's free pool, and removes the entry for that address while
leaving every other address's entry untouched. -/
theorem C6_unmap_releases_looked_up_frame_then_removes_entry
    (h : ByFrame) (pt : PageTable) (a : VirtAddr) (e : Entry)
    (he : PageTable.get_entry pt a = some e) :
    ∃ h' pt', ByFrame.unmap h pt a = Except.ok (h', pt') ∧
      h'.allocator.free = e.target :: h.allocator.free ∧
      PageTable.get_entry pt' a = none ∧
      ∀ b, b ≠ a → PageTable.get_entry pt' b = PageTable.get_entry pt b := by
  refine ⟨⟨FrameAllocator.dealloc h.allocator e.target⟩, PageTable.unmap pt a, ?_, rfl, ?_, ?_⟩
  · simp [ByFrame.unmap, he]
  · simp [PageTable.get_entry, PageTable.unmap]
  · intro b hb
    simp [PageTable.get_entry, PageTable.unmap, hb]

/-- C6 witness: unmapping address 3, mapped to frame 11, with an allocator
holding frame 7. -/
theorem C6_witness :
    ∃ h' pt', ByFrame.unmap ⟨⟨[7]⟩⟩ (PageTable.map emptyPageTable 3 11) 3
        = Except.ok (h', pt') ∧
      h'.allocator.free = 11 :: [7] ∧
      PageTable.get_entry pt' 3 = none ∧
      ∀ b, b ≠ 3 → PageTable.get_entry pt' b
          = PageTable.get_entry (PageTable.map emptyPageTable 3 11) b :=
  C6_unmap_releases_looked_up_frame_then_removes_entry ⟨⟨[7]⟩⟩
    (PageTable.map emptyPageTable 3 11) 3 ⟨11, defaultAttr⟩ rfl

/-- C7: a successful `map pt a attr` leaves the page at `a` mapped with
exactly `attr` and no other page's entry changed; moreover no handler
operation ever rewrites an existing entry's permissions: `unmap` only removes
entries or leaves them as they were, and `handle_page_fault` leaves the page
table unchanged. -/
theorem C7_attribute_exactness
    (h h' : ByFrame) (pt pt' : PageTable) (a : VirtAddr) (attr : MemoryAttr)
    (hm : ByFrame.map h pt a attr = Except.ok (h', pt')) :
    (∃ f, PageTable.get_entry pt' a = some ⟨f, attr⟩) ∧
    (∀ b, b ≠ a → PageTable.get_entry pt' b = PageTable.get_entry pt b) ∧
    (∀ (g g' : ByFrame) (q q' : PageTable) (c : VirtAddr),
      ByFrame.unmap g q c = Except.ok (g', q') →
      ∀ b, PageTable.get_entry q' b = none ∨
        PageTable.get_entry q' b = PageTable.get_entry q b) ∧
    (∀ (g : ByFrame) (q : PageTable) (c : VirtAddr),
      (ByFrame.handle_page_fault g q c).2.2 = q) := by
  obtain ⟨⟨free⟩⟩ := h
  cases free with
  | nil => simp [ByFrame.map, FrameAllocator.alloc] at hm
  | cons f rest =>
    simp [ByFrame.map, FrameAllocator.alloc] at hm
    obtain ⟨hh, hp⟩ := hm
    subst hh
    subst hp
    refine ⟨⟨f, ?_⟩, ?_, ?_, fun g q c => rfl⟩
    · simp [PageTable.get_entry, MemoryAttr.apply, PageTable.map]
    · intro b hb
      simp [PageTable.get_entry, MemoryAttr.apply, PageTable.map, hb]
    · intro g g' q q' c hu b
      cases hq : PageTable.get_entry q c with
      | none => simp [ByFrame.unmap, hq] at hu
      | some e =>
        simp [ByFrame.unmap, hq] at hu
        obtain ⟨-, hq'⟩ := hu
        subst hq'
        by_cases hb : b = c
        · subst hb
          exact Or.inl (by simp [PageTable.get_entry, PageTable.unmap])
        · exact Or.inr (by simp [PageTable.get_entry, PageTable.unmap, hb])

/-- C7 witness: mapping address 0 with `attr0` from an allocator holding
frame 5. -/
theorem C7_witness :
    (∃ f, PageTable.get_entry (MemoryAttr.apply attr0 (PageTable.map emptyPageTable 0 5) 0) 0
        = some ⟨f, attr0⟩) ∧
    (∀ b, b ≠ 0 → PageTable.get_entry
        (MemoryAttr.apply attr0 (PageTable.map emptyPageTable 0 5) 0) b
        = PageTable.get_entry emptyPageTable b) ∧
    (∀ (g g' : ByFrame) (q q' : PageTable) (c : VirtAddr),
      ByFrame.unmap g q c = Except.ok (g', q') →
      ∀ b, PageTable.get_entry q' b = none ∨
        PageTable.get_entry q' b = PageTable.get_entry q b) ∧
    (∀ (g : ByFrame) (q : PageTable) (c : VirtAddr),
      (ByFrame.handle_page_fault g q c).2.2 = q) :=
  C7_attribute_exactness ⟨⟨[5]⟩⟩ ⟨⟨[]⟩⟩ emptyPageTable
    (MemoryAttr.apply attr0 (PageTable.map emptyPageTable 0 5) 0) 0 attr0 rfl

/-- C9: evaluating the scenario on the code with one free frame (frame 42):
`map(pageA)` succeeds, but `map(pageB)` panics (`.expect`, a kernel abort)
rather than failing with a recoverable NoFramesAvailable result — so the
claimed continuation (unmap then retry) is unreachable in the code.  The
final conjuncts show that on the pre-panic state `unmap(pageA)` would return
the frame and `map(pageB)` would then succeed. -/
theorem C9_one_frame_scenario :
    ∃ h1 pt1, ByFrame.map ⟨⟨[42]⟩⟩ emptyPageTable 0 attr0 = Except.ok (h1, pt1) ∧
      ByFrame.map h1 pt1 4096 attr0 = Except.error Panic.failedToAllocateFrame ∧
      ∃ h2 pt2, ByFrame.unmap h1 pt1 0 = Except.ok (h2, pt2) ∧
        FrameAllocator.freeCount h2.allocator = 1 ∧
        ∃ h3 pt3, ByFrame.map h2 pt2 4096 attr0 = Except.ok (h3, pt3) :=
  ⟨⟨⟨[]⟩⟩, MemoryAttr.apply attr0 (PageTable.map emptyPageTable 0 42) 0, rfl, rfl,
    ⟨⟨[42]⟩⟩, PageTable.unmap (MemoryAttr.apply attr0 (PageTable.map emptyPageTable 0 42) 0) 0,
    rfl, rfl,
    ⟨⟨[]⟩⟩, MemoryAttr.apply attr0 (PageTable.map
      (PageTable.unmap (MemoryAttr.apply attr0 (PageTable.map emptyPageTable 0 42) 0) 0)
      4096 42) 4096, rfl⟩
